/-
Verification of the AIHawk resume/cover-letter generator.

Shallow embedding of the repository's Python code in Lean 4.
Python strings are modelled as Lean `String` (or `List Char` where
character-level manipulation is involved), Python exceptions as
`Except PyErr`, Python values (results of YAML parsing etc.) as the
inductive `PyVal`, and calls into external libraries (Selenium,
LangChain, BeautifulSoup, yaml, pydantic, hashlib) as oracle
parameters that may return any value of the appropriate shape.
-/
import Mathlib

set_option maxHeartbeats 1000000

/-- Python exception values, by class. -/
inductive PyErr where
  | valueError : String → PyErr
  | typeError : String → PyErr
  | keyError : String → PyErr
  | attributeError : String → PyErr
  | fileNotFound : String → PyErr
  | exception : String → PyErr
  /-- `raise Exception(f"Unexpected error while parsing YAML: {e}") from e`:
  a generic `Exception` wrapping an underlying error. -/
  | unexpected : PyErr → PyErr
  deriving Repr

/-- A Python value as produced by `yaml.safe_load` and manipulated by the
`Resume` constructor: `None`, booleans, integers, strings, lists and
(insertion-ordered) dicts with string keys. -/
inductive PyVal where
  | pynone : PyVal
  | pybool : Bool → PyVal
  | pyint : Int → PyVal
  | pystr : String → PyVal
  | pylist : List PyVal → PyVal
  | pydict : List (String × PyVal) → PyVal

/-- Whether a `PyVal` is a Python `dict` (`isinstance(x, dict)`). -/
def PyVal.isDict : PyVal → Bool
  | .pydict _ => true
  | _ => false

/-
`Resume.normalize_exam_format` (src/src/resume_schemas/resume.py lines
126-130):

    @staticmethod
    def normalize_exam_format(exam):
        if isinstance(exam, dict):
            return [{k: v} for k, v in exam.items()]
        return exam
-/

/-- Embedding of `Resume.normalize_exam_format`: a dict becomes the list of
its single-entry dicts in iteration (insertion) order; anything else is
returned unchanged. -/
def normalize_exam_format : PyVal → PyVal
  | .pydict kvs => .pylist (kvs.map fun kv => .pydict [kv])
  | v => v

/-
`ResumeFacade.create_resume_pdf_job_tailored` (resume_facade.py line 196)
and `ResumeFacade.create_cover_letter` (line 298) both compute

    suggested_name = hashlib.md5(self.job.link.encode()).hexdigest()[:10]

`hashlib.md5(...).hexdigest()` is an external library function; it is
modelled as an oracle `md5_hexdigest : String → String` taking the string
that was encoded. -/

/-- The suggested output name computed by
`ResumeFacade.create_resume_pdf_job_tailored`: the first 10 characters of
the MD5 hex digest of the job link. -/
def suggested_name_job_tailored (md5_hexdigest : String → String)
    (job_link : String) : String :=
  (md5_hexdigest job_link).take 10

/-- The suggested output name computed by
`ResumeFacade.create_cover_letter`: the first 10 characters of the MD5 hex
digest of the job link. -/
def suggested_name_cover_letter (md5_hexdigest : String → String)
    (job_link : String) : String :=
  (md5_hexdigest job_link).take 10

/-- C7: `normalize_exam_format` maps a dict to the list of its
single-entry dicts (one dict per key, in iteration order), returns any
non-dict input unchanged, and is idempotent. -/
theorem normalize_exam_format_spec :
    (∀ kvs : List (String × PyVal),
      normalize_exam_format (.pydict kvs) =
        .pylist (kvs.map fun kv => .pydict [kv])) ∧
    (∀ v : PyVal, v.isDict = false → normalize_exam_format v = v) ∧
    (∀ v : PyVal,
      normalize_exam_format (normalize_exam_format v) =
        normalize_exam_format v) := by
  refine ⟨fun kvs => rfl, fun v hv => ?_, fun v => ?_⟩
  · cases v <;> simp_all [normalize_exam_format, PyVal.isDict]
  · cases v <;> rfl

/-- Witness for C7 at concrete inputs: a two-key dict is split into two
singleton dicts, a string is left unchanged, and a second application is a
no-op. -/
theorem normalize_exam_format_spec_witness :
    (PyVal.pystr "GRE").isDict = false ∧
    normalize_exam_format
        (.pydict [("GRE", .pystr "320"), ("TOEFL", .pystr "110")]) =
      .pylist [.pydict [("GRE", .pystr "320")],
               .pydict [("TOEFL", .pystr "110")]] ∧
    normalize_exam_format (.pystr "GRE") = .pystr "GRE" ∧
    normalize_exam_format
        (normalize_exam_format
          (.pydict [("GRE", .pystr "320"), ("TOEFL", .pystr "110")])) =
      normalize_exam_format
        (.pydict [("GRE", .pystr "320"), ("TOEFL", .pystr "110")]) := by
  refine ⟨rfl, ?_, ?_, ?_⟩
  · exact normalize_exam_format_spec.1 [("GRE", .pystr "320"), ("TOEFL", .pystr "110")]
  · exact normalize_exam_format_spec.2.1 (.pystr "GRE") rfl
  · exact normalize_exam_format_spec.2.2
      (.pydict [("GRE", .pystr "320"), ("TOEFL", .pystr "110")])

/-- C10: the suggested output name is, in both operations, the same
deterministic function of the job link alone (the 10-character truncation
of the MD5 hex digest of the link): two runs with the same link, in either
operation, produce the same suggested name. -/
theorem suggested_name_deterministic
    (md5_hexdigest : String → String) (link₁ link₂ : String)
    (h : link₁ = link₂) :
    suggested_name_job_tailored md5_hexdigest link₁ =
      suggested_name_job_tailored md5_hexdigest link₂ ∧
    suggested_name_cover_letter md5_hexdigest link₁ =
      suggested_name_cover_letter md5_hexdigest link₂ ∧
    suggested_name_job_tailored md5_hexdigest link₁ =
      suggested_name_cover_letter md5_hexdigest link₂ := by
  subst h
  exact ⟨rfl, rfl, rfl⟩

/-- Witness for C10 at a concrete MD5 oracle and link. -/
theorem suggested_name_deterministic_witness :
    suggested_name_job_tailored (fun s => s ++ s) "https://x.y/jobs/view/123" =
      suggested_name_cover_letter (fun s => s ++ s) "https://x.y/jobs/view/123" :=
  (suggested_name_deterministic (fun s => s ++ s)
    "https://x.y/jobs/view/123" "https://x.y/jobs/view/123" rfl).2.2

/-
`LLMParser.__init__` (src/src/libs/resume_and_cover_builder/llm/
llm_job_parser.py lines 60-159).  The constructor lowercases the model
type, then branches on "ollama" / "openai" / "gemini", raising ValueError
for anything else, for "openai"/"gemini" with a falsy api_key, and for
"gemini" when the `langchain_google_genai` import fails (ImportError is
caught and re-raised as ValueError).  External constructor calls
(OllamaEmbeddings, ChatOpenAI, ChatGoogleGenerativeAI, ...) are modelled
as succeeding and yielding opaque handles; import availability is an
oracle boolean.
-/

/-- Python truthiness of an `Optional[str]`: falsy iff `None` or `""`. -/
def pyTruthyOptStr : Option String → Bool
  | none => false
  | some s => s ≠ ""

/-- Python `str.lower()` restricted to ASCII letters (all strings the
constructor compares against are ASCII). -/
def pyLower (s : String) : String := ⟨s.data.map Char.toLower⟩

/-- The attribute state of an `LLMParser` instance.  `Option Unit` fields
stand for attributes holding `None` or an opaque library object; the
fields `client` and `model` are listed because `extract_job_requirements`
reads `self.client` / `self.model`, but NO method of the class ever
assigns them, so they are `none` (absent: access raises AttributeError)
in every reachable state. -/
structure LLMParserState where
  api_key : Option String
  model_type : String
  model_name : String
  body_html : Option String
  vectorstore : Option Unit
  fragments : List String
  embeddings : Option Unit
  llm : Option Unit
  client : Option Unit
  model : Option Unit

/-- Embedding of `LLMParser.__init__`.  `gemini_import_ok` tells whether
`from langchain_google_genai import ChatGoogleGenerativeAI` succeeds, and
`gemini_emb_import_ok` whether `GoogleGenerativeAIEmbeddings` imports
(its failure is caught and only downgrades the embeddings). -/
def llmparser_init (api_key : Option String) (model_type model : String)
    (gemini_import_ok gemini_emb_import_ok : Bool) :
    Except PyErr LLMParserState :=
  let mt := pyLower model_type
  let base : LLMParserState :=
    { api_key := api_key, model_type := mt, model_name := model,
      body_html := none, vectorstore := none, fragments := [],
      embeddings := none, llm := none, client := none, model := none }
  if mt = "ollama" then
    .ok { base with embeddings := some (), llm := some () }
  else if mt = "openai" then
    if pyTruthyOptStr api_key = false then
      .error (.valueError "使用OpenAI模型需要提供API密钥")
    else
      .ok { base with embeddings := some (), llm := some () }
  else if mt = "gemini" then
    if gemini_import_ok = false then
      .error (.valueError
        "未安装Gemini库，请运行: pip install langchain-google-genai google-generativeai")
    else if pyTruthyOptStr api_key = false then
      .error (.valueError "使用Gemini模型需要提供Google API密钥")
    else
      let emb : Option Unit :=
        if gemini_emb_import_ok then some ()
        else if pyTruthyOptStr api_key then some () else none
      .ok { base with llm := some (), embeddings := emb }
  else
    .error (.valueError ("不支持的模型类型: " ++ mt))

/-- Python `str.strip()` / `.strip()` whitespace predicate (ASCII
whitespace: space, tab, newline, carriage return, vertical tab, form
feed). -/
def pyIsSpace (c : Char) : Bool :=
  c = ' ' || c = '\t' || c = '\n' || c = '\r' ||
  c = Char.ofNat 11 || c = Char.ofNat 12

/-- Strip characters satisfying `p` from both ends of a character list. -/
def pyStripListWith (p : Char → Bool) (l : List Char) : List Char :=
  ((l.dropWhile p).reverse.dropWhile p).reverse

/-- Python `str.strip()` on a string. -/
def pyStrip (s : String) : String := ⟨pyStripListWith pyIsSpace s.data⟩

/-
`LLMParser.extract_job_requirements` (llm_job_parser.py lines 1463-1568):
returns "" when `self.body_html` is falsy; cleans the HTML through
BeautifulSoup (falling back to the raw HTML on a parsing exception);
truncates to 4000 characters; then branches on `self.model_type`.  The
"openai" branch reads `self.client` (then `self.model`), neither of which
the constructor ever defines, so the attribute access raises
AttributeError, and the surrounding `except Exception` handler (line
1566) returns "".  The "gemini"/"ollama" branches guard their LLM call
with an inner handler returning "无法提取岗位要求：API调用失败".
-/

/-- Embedding of `LLMParser.extract_job_requirements`.  `soup_clean`
models the BeautifulSoup text extraction (`none` = parsing exception, in
which case the raw HTML is used), `llm_response` the provider response if
a provider call is actually performed (`none` = the call raises). -/
def extract_job_requirements (st : LLMParserState)
    (soup_clean : String → Option String)
    (llm_response : Option String) : String :=
  match st.body_html with
  | none => ""
  | some bh =>
    if bh = "" then ""
    else
      let clean_text := match soup_clean bh with
        | some t => t
        | none => bh
      let _clean_text :=
        if clean_text.length > 4000 then clean_text.take 4000 else clean_text
      if st.model_type = "openai" then
        match st.client with
        | none => ""
        | some _ =>
          match st.model with
          | none => ""
          | some _ =>
            match llm_response with
            | some r => pyStrip r
            | none => ""
      else if st.model_type = "anthropic" then
        match st.client with
        | none => ""
        | some _ =>
          match st.model with
          | none => ""
          | some _ =>
            match llm_response with
            | some r => pyStrip r
            | none => ""
      else if st.model_type = "gemini" then
        match st.llm with
        | none => "无法提取岗位要求：API调用失败"
        | some _ =>
          match llm_response with
          | some r => pyStrip r
          | none => "无法提取岗位要求：API调用失败"
      else if st.model_type = "ollama" then
        match st.llm with
        | none => "无法提取岗位要求：API调用失败"
        | some _ =>
          match llm_response with
          | some r => pyStrip r
          | none => "无法提取岗位要求：API调用失败"
      else
        "不支持的模型类型"

/-- C3: `LLMParser.__init__` accepts exactly the model types "openai",
"ollama" and "gemini", compared case-insensitively: any other model type
raises ValueError, and "openai" with a falsy API key raises ValueError;
conversely "ollama" always constructs, "openai" with a truthy key
constructs, and "gemini" with a truthy key constructs when the Gemini
library imports. -/
theorem llmparser_init_model_types (api_key : Option String)
    (model_type model : String) (gi gei : Bool) :
    (pyLower model_type ∉ (["openai", "ollama", "gemini"] : List String) →
      llmparser_init api_key model_type model gi gei =
        .error (.valueError ("不支持的模型类型: " ++ pyLower model_type))) ∧
    (pyLower model_type = "openai" → pyTruthyOptStr api_key = false →
      llmparser_init api_key model_type model gi gei =
        .error (.valueError "使用OpenAI模型需要提供API密钥")) ∧
    (pyLower model_type = "ollama" →
      ∃ st, llmparser_init api_key model_type model gi gei = .ok st) ∧
    (pyLower model_type = "openai" → pyTruthyOptStr api_key = true →
      ∃ st, llmparser_init api_key model_type model gi gei = .ok st) ∧
    (pyLower model_type = "gemini" → gi = true →
      pyTruthyOptStr api_key = true →
      ∃ st, llmparser_init api_key model_type model gi gei = .ok st) := by
  refine ⟨fun hout => ?_, fun hmt hk => ?_, fun hmt => ?_,
    fun hmt hk => ?_, fun hmt hgi hk => ?_⟩
  · simp only [List.mem_cons, List.not_mem_nil, or_false, not_or] at hout
    obtain ⟨h1, h2, h3⟩ := hout
    simp [llmparser_init, h1, h2, h3]
  · simp [llmparser_init, hmt, hk]
  · exact ⟨{ api_key := api_key, model_type := "ollama", model_name := model,
             body_html := none, vectorstore := none, fragments := [],
             embeddings := some (), llm := some (), client := none,
             model := none },
           by simp [llmparser_init, hmt]⟩
  · exact ⟨{ api_key := api_key, model_type := "openai", model_name := model,
             body_html := none, vectorstore := none, fragments := [],
             embeddings := some (), llm := some (), client := none,
             model := none },
           by simp [llmparser_init, hmt, hk]⟩
  · exact ⟨{ api_key := api_key, model_type := "gemini", model_name := model,
             body_html := none, vectorstore := none, fragments := [],
             embeddings := some (), llm := some (), client := none,
             model := none },
           by simp [llmparser_init, hmt, hgi, hk]⟩

/-- Witness for C3: "OpenAI" (mixed case) with a key constructs; "claude"
is rejected; "OPENAI" without a key is rejected. -/
theorem llmparser_init_model_types_witness :
    pyLower "claude" ∉ (["openai", "ollama", "gemini"] : List String) ∧
    llmparser_init (some "sk-1") "claude" "m" true true =
      .error (.valueError ("不支持的模型类型: " ++ pyLower "claude")) ∧
    pyLower "OPENAI" = "openai" ∧ pyTruthyOptStr (none : Option String) = false ∧
    llmparser_init none "OPENAI" "m" true true =
      .error (.valueError "使用OpenAI模型需要提供API密钥") ∧
    ∃ st, llmparser_init (some "sk-1") "OpenAI" "m" true true = .ok st := by
  refine ⟨by decide, ?_, by decide, by decide, ?_, ?_⟩
  · exact (llmparser_init_model_types (some "sk-1") "claude" "m" true true).1
      (by decide)
  · exact (llmparser_init_model_types none "OPENAI" "m" true true).2.1
      (by decide) (by decide)
  · exact (llmparser_init_model_types (some "sk-1") "OpenAI" "m" true true).2.2.2.1
      (by decide) (by decide)

/-- C9: for every `LLMParser` constructed with model type "openai",
`extract_job_requirements` on a non-empty body HTML returns the empty
string: the OpenAI branch reads `self.client` (and `self.model`), which
the constructor never defines, so the branch raises AttributeError and the
surrounding handler maps the failure to "".  Setting the body HTML is the
first statement of `set_body_html` (`self.body_html = html_content`); no
other statement of that method touches `model_type`, `client` or
`body_html`, so it is modelled as the record update. -/
theorem extract_job_requirements_openai_empty
    (api_key : Option String) (model_type model : String) (gi gei : Bool)
    (st : LLMParserState)
    (hinit : llmparser_init api_key model_type model gi gei = .ok st)
    (hmt : pyLower model_type = "openai")
    (html : String) (hhtml : html ≠ "")
    (soup_clean : String → Option String) (llm_response : Option String) :
    extract_job_requirements { st with body_html := some html }
      soup_clean llm_response = "" := by
  simp only [llmparser_init, hmt] at hinit
  rcases h : pyTruthyOptStr api_key with _ | _
  · simp [h] at hinit
  · simp [h] at hinit
    subst hinit
    simp [extract_job_requirements, hhtml]

/-- Witness for C9: a concrete "openai" parser with a key, a concrete
non-empty HTML body, a failing soup oracle and no LLM response. -/
theorem extract_job_requirements_openai_empty_witness :
    extract_job_requirements
      { api_key := some "sk-1", model_type := "openai", model_name := "m",
        body_html := some "<p>job</p>", vectorstore := none,
        fragments := [], embeddings := some (), llm := some (),
        client := none, model := none }
      (fun _ => none) none = "" :=
  extract_job_requirements_openai_empty (some "sk-1") "openai" "m" true true
    { api_key := some "sk-1", model_type := "openai", model_name := "m",
      body_html := none, vectorstore := none, fragments := [],
      embeddings := some (), llm := some (), client := none, model := none }
    (by rfl) (by rfl) "<p>job</p>" (by decide) (fun _ => none) none

/-
`ResumeFacade.create_resume_pdf`, `create_resume_pdf_job_tailored` and
`create_cover_letter` (src/src/libs/resume_and_cover_builder/
resume_facade.py lines 180-330).  Each first asks the style manager for
the style path and raises ValueError when it is `None`; only then does it
render HTML and convert it to PDF.  `create_cover_letter` additionally
checks that the style file exists on disk, falling back to the first
available style (or raising FileNotFoundError when there is none).
External collaborators are oracles in `FacadeEnv`; the two booleans of a
`FacadeRun` record whether HTML rendering and PDF conversion were ever
reached. -/
structure FacadeEnv where
  /-- `self.style_manager.get_style_path()` -/
  style_path : Option String
  /-- `os.path.exists(style_path)` -/
  style_file_exists : String → Bool
  /-- `self.style_manager.get_styles().items()` as (name, file, url) -/
  styles : List (String × String × String)
  /-- `get_style_path()` re-read after `set_selected_style` -/
  style_path_after_reset : Option String
  /-- `resume_generator.create_resume(style_path)` -/
  render_resume : String → String
  /-- `resume_generator.create_resume_job_description_text(path, descr)` -/
  render_resume_job : String → String → String
  /-- `resume_generator.create_cover_letter_job_description(path, descr)`
  (the path argument may be `None` after the fallback re-read) -/
  render_cover : Option String → String → String
  /-- `HTML_to_PDF(html, self.driver)`: the PDF bytes, or the exception -/
  html_to_pdf : String → Except PyErr String
  /-- `HTML_to_PDF(html)` retried with the default browser -/
  html_to_pdf_default : String → Except PyErr String
  /-- `self.job.link` -/
  job_link : String
  /-- `self.job.description` -/
  job_description : String
  /-- `hashlib.md5(·.encode()).hexdigest()` -/
  md5_hexdigest : String → String

/-- Outcome of one facade method call: the returned
`(pdf_bytes, suggested_name)` or the raised exception, plus whether HTML
rendering and PDF conversion were reached. -/
structure FacadeRun where
  result : Except PyErr (String × String)
  rendered_html : Bool
  attempted_pdf : Bool
  deriving Repr

/-- The `try: HTML_to_PDF(html, self.driver) ... except: HTML_to_PDF(html)
... except: raise` tail shared by the three facade methods. -/
def facade_pdf_step (env : FacadeEnv) (html : String) (name : String) :
    FacadeRun :=
  match env.html_to_pdf html with
  | .ok pdf => ⟨.ok (pdf, name), true, true⟩
  | .error _ =>
    match env.html_to_pdf_default html with
    | .ok pdf => ⟨.ok (pdf, name), true, true⟩
    | .error e => ⟨.error e, true, true⟩

/-- Embedding of `ResumeFacade.create_resume_pdf`. -/
def create_resume_pdf (env : FacadeEnv) : FacadeRun :=
  match env.style_path with
  | none => ⟨.error (.valueError "必须先选择样式才能生成PDF。"), false, false⟩
  | some sp => facade_pdf_step env (env.render_resume sp) "resume_base"

/-- Embedding of `ResumeFacade.create_resume_pdf_job_tailored`. -/
def create_resume_pdf_job_tailored (env : FacadeEnv) : FacadeRun :=
  match env.style_path with
  | none =>
    ⟨.error (.valueError "You must choose a style before generating the PDF."),
     false, false⟩
  | some sp =>
    facade_pdf_step env (env.render_resume_job sp env.job_description)
      (suggested_name_job_tailored env.md5_hexdigest env.job_link)

/-- Embedding of `ResumeFacade.create_cover_letter`. -/
def create_cover_letter (env : FacadeEnv) : FacadeRun :=
  match env.style_path with
  | none =>
    ⟨.error (.valueError "You must choose a style before generating the PDF."),
     false, false⟩
  | some sp =>
    let recovered : Except PyErr (Option String) :=
      if env.style_file_exists sp then .ok (some sp)
      else
        match env.styles with
        | [] => .error (.fileNotFound "样式文件不可用")
        | _ :: _ => .ok env.style_path_after_reset
    match recovered with
    | .error e => ⟨.error e, false, false⟩
    | .ok sp' =>
      facade_pdf_step env (env.render_cover sp' env.job_description)
        (suggested_name_cover_letter env.md5_hexdigest env.job_link)

/-- C6: each of `create_resume_pdf`, `create_resume_pdf_job_tailored` and
`create_cover_letter` raises ValueError when the style manager yields no
style path, without ever rendering HTML or converting to PDF; rendering
and conversion are reached only when a style path is available. -/
theorem facade_requires_style (env : FacadeEnv)
    (h : env.style_path = none) :
    create_resume_pdf env =
      ⟨.error (.valueError "必须先选择样式才能生成PDF。"), false, false⟩ ∧
    create_resume_pdf_job_tailored env =
      ⟨.error (.valueError "You must choose a style before generating the PDF."),
       false, false⟩ ∧
    create_cover_letter env =
      ⟨.error (.valueError "You must choose a style before generating the PDF."),
       false, false⟩ := by
  refine ⟨?_, ?_, ?_⟩ <;>
    simp [create_resume_pdf, create_resume_pdf_job_tailored,
      create_cover_letter, h]

/-- Witness for C6: a concrete environment with no style path. -/
theorem facade_requires_style_witness :
    create_resume_pdf
      { style_path := none, style_file_exists := fun _ => true,
        styles := [], style_path_after_reset := none,
        render_resume := fun _ => "h", render_resume_job := fun _ _ => "h",
        render_cover := fun _ _ => "h", html_to_pdf := fun _ => .ok "p",
        html_to_pdf_default := fun _ => .ok "p",
        job_link := "https://a.b/jobs/view/1", job_description := "d",
        md5_hexdigest := fun s => s } =
      ⟨.error (.valueError "必须先选择样式才能生成PDF。"), false, false⟩ :=
  (facade_requires_style
    { style_path := none, style_file_exists := fun _ => true,
      styles := [], style_path_after_reset := none,
      render_resume := fun _ => "h", render_resume_job := fun _ _ => "h",
      render_cover := fun _ _ => "h", html_to_pdf := fun _ => .ok "p",
      html_to_pdf_default := fun _ => .ok "p",
      job_link := "https://a.b/jobs/view/1", job_description := "d",
      md5_hexdigest := fun s => s } rfl).1

/-
`Resume.__init__` (src/src/resume_schemas/resume.py lines 132-147):

    try:
        data = yaml.safe_load(yaml_str)
        if 'education_details' in data:
            for ed in data['education_details']:
                if 'exam' in ed:
                    ed['exam'] = self.normalize_exam_format(ed['exam'])
        super().__init__(**data)
    except yaml.YAMLError as e:
        raise ValueError("Error parsing YAML file.") from e
    except Exception as e:
        raise Exception(f"Unexpected error while parsing YAML: {e}") from e

`yaml.safe_load` (PyYAML) and the pydantic `BaseModel.__init__` validation
are external libraries, modelled as oracles; the Python container
operations `in`, subscript, item assignment and iteration are embedded on
`PyVal` with Python semantics (dict key membership, string substring
membership, TypeError on non-containers, insertion-order-preserving item
assignment). -/

/-- `needle in haystack` for Python strings (substring test), on
character lists. -/
def listContainsSub (haystack needle : List Char) : Bool :=
  (List.range (haystack.length + 1)).any fun i =>
    needle.isPrefixOf (haystack.drop i)

/-- Python `key in x` for a string `key`: dict key membership, list
element membership, string substring membership; TypeError otherwise. -/
def pyContainsStr : PyVal → String → Except PyErr Bool
  | .pydict kvs, k => .ok (kvs.any fun kv => kv.1 = k)
  | .pylist l, k =>
    .ok (l.any fun v => match v with | .pystr s => s = k | _ => false)
  | .pystr s, k => .ok (listContainsSub s.data k.data)
  | _, _ => .error (.typeError "argument is not iterable")

/-- Python `x[key]` for a string `key`: dict lookup (KeyError when
absent), TypeError on anything else (list and str need integer
indices). -/
def pySubscriptStr : PyVal → String → Except PyErr PyVal
  | .pydict kvs, k =>
    match kvs.find? (fun kv => kv.1 = k) with
    | some kv => .ok kv.2
    | none => .error (.keyError k)
  | _, _ => .error (.typeError "indices must be integers")

/-- Python `d[key] = v` on a dict: an existing key keeps its position, a
new key is appended (insertion order). -/
def pyDictSet (kvs : List (String × PyVal)) (k : String) (v : PyVal) :
    List (String × PyVal) :=
  if kvs.any (fun kv => kv.1 = k) then
    kvs.map fun kv => if kv.1 = k then (k, v) else kv
  else kvs ++ [(k, v)]

/-- One iteration of the education loop:
`if 'exam' in ed: ed['exam'] = self.normalize_exam_format(ed['exam'])`. -/
def resume_normalize_ed (ed : PyVal) : Except PyErr PyVal :=
  match pyContainsStr ed "exam" with
  | .error e => .error e
  | .ok false => .ok ed
  | .ok true =>
    match ed with
    | .pydict kvs =>
      match pySubscriptStr (.pydict kvs) "exam" with
      | .error e => .error e
      | .ok cur =>
        .ok (.pydict (pyDictSet kvs "exam" (normalize_exam_format cur)))
    | _ => .error (.typeError "string indices must be integers")

/-- The loop `for ed in data['education_details']: ...` with Python
mutation semantics: a list of dicts is rewritten entry by entry; iterating
a dict yields its keys (strings, which cannot be subscripted by "exam");
iterating a string yields one-character strings (never containing
"exam"); anything else is not iterable. -/
def resume_normalize_education (data : PyVal) : Except PyErr PyVal :=
  match pySubscriptStr data "education_details" with
  | .error e => .error e
  | .ok (.pylist items) =>
    match items.mapM resume_normalize_ed with
    | .error e => .error e
    | .ok items' =>
      match data with
      | .pydict kvs =>
        .ok (.pydict (pyDictSet kvs "education_details" (.pylist items')))
      | _ => .error (.typeError "indices must be integers")
  | .ok (.pydict kvs2) =>
    match kvs2.mapM (fun kv =>
        if listContainsSub kv.1.data ("exam".data) then
          (.error (.typeError "string indices must be integers") :
            Except PyErr Unit)
        else .ok ()) with
    | .error e => .error e
    | .ok _ => .ok data
  | .ok (.pystr _) => .ok data
  | .ok _ => .error (.typeError "is not iterable")

/-- The body of the `try:` block after `yaml.safe_load` has produced
`data`; `validate` is the pydantic `super().__init__(**data)` call
(`**` requires a mapping). -/
def resume_init_body {α : Type} (validate : PyVal → Except PyErr α)
    (data : PyVal) : Except PyErr α :=
  match pyContainsStr data "education_details" with
  | .error e => .error e
  | .ok has =>
    match (if has then resume_normalize_education data else .ok data) with
    | .error e => .error e
    | .ok data' =>
      match data' with
      | .pydict kvs => validate (.pydict kvs)
      | _ => .error (.typeError "argument after ** must be a mapping")

/-- Embedding of `Resume.__init__`: a YAMLError from `safe_load` becomes
`ValueError("Error parsing YAML file.")` (chained from the YAML error);
any other failure in the try block is re-raised wrapped in a generic
`Exception` (`.unexpected`). -/
def resume_init {α : Type} (safe_load : String → Except Unit PyVal)
    (validate : PyVal → Except PyErr α) (yaml_str : String) :
    Except PyErr α :=
  match safe_load yaml_str with
  | .error _ => .error (.valueError "Error parsing YAML file.")
  | .ok data =>
    match resume_init_body validate data with
    | .ok r => .ok r
    | .error e => .error (.unexpected e)

/-- C5: when the YAML does not parse (`yaml.safe_load` raises a
YAMLError), `Resume.__init__` raises
`ValueError("Error parsing YAML file.")`; and a Resume instance is
constructed only when the YAML parsed and the pydantic validation of the
(normalized) data succeeded. -/
theorem resume_init_spec {α : Type} (safe_load : String → Except Unit PyVal)
    (validate : PyVal → Except PyErr α) (yaml_str : String) :
    (safe_load yaml_str = .error () →
      resume_init safe_load validate yaml_str =
        .error (.valueError "Error parsing YAML file.")) ∧
    (∀ r : α, resume_init safe_load validate yaml_str = .ok r →
      ∃ data kvs, safe_load yaml_str = .ok data ∧
        validate (.pydict kvs) = .ok r) := by
  constructor
  · intro h
    simp [resume_init, h]
  · intro r hr
    cases hld : safe_load yaml_str with
    | error e => simp [resume_init, hld] at hr
    | ok data =>
      refine ⟨data, ?_⟩
      simp only [resume_init, hld] at hr
      cases hb : resume_init_body validate data with
      | error e => simp [hb] at hr
      | ok r' =>
        simp only [hb, Except.ok.injEq] at hr
        subst hr
        unfold resume_init_body at hb
        cases hc : pyContainsStr data "education_details" with
        | error e => simp [hc] at hb
        | ok has =>
          simp only [hc] at hb
          cases hn : (if has then resume_normalize_education data
              else .ok data) with
          | error e => simp [hn] at hb
          | ok data' =>
            simp only [hn] at hb
            cases data' with
            | pydict kvs => exact ⟨kvs, rfl, hb⟩
            | pynone => simp at hb
            | pybool b => simp at hb
            | pyint n => simp at hb
            | pystr s => simp at hb
            | pylist l => simp at hb

/-- Witness for C5: a failing YAML oracle yields the ValueError, and a
successful parse to a valid dict constructs the instance. -/
theorem resume_init_spec_witness :
    resume_init (fun _ => .error ()) (fun _ => (.ok 0 : Except PyErr Nat))
        "][" = .error (.valueError "Error parsing YAML file.") ∧
    (∃ data kvs, (fun (_ : String) =>
        (.ok (PyVal.pydict [("interests", .pylist [])]) :
          Except Unit PyVal)) "interests: []" = .ok data ∧
      (fun (_ : PyVal) => (.ok 7 : Except PyErr Nat)) (.pydict kvs) =
        .ok 7) := by
  constructor
  · exact (resume_init_spec (fun _ => .error ())
      (fun _ => (.ok 0 : Except PyErr Nat)) "][").1 rfl
  · exact (resume_init_spec
      (fun _ => (.ok (PyVal.pydict [("interests", .pylist [])]) :
        Except Unit PyVal))
      (fun _ => (.ok 7 : Except PyErr Nat)) "interests: []").2 7 rfl

/-
`BrowserManager.get_page_content` (src/src/utils/chrome_utils.py lines
334-797) and `MAX_RETRIES` (src/config.py line 59).

    for attempt in range(cfg.MAX_RETRIES):
        try:
            ...            # one fetch attempt; returns page content
            return content
        except Exception as e:
            ...
            if attempt < cfg.MAX_RETRIES - 1:
                ...        # wait and clear state, then retry
            else:
                logger.error("达到最大重试次数 ...")
                if self.auto_restart and not self.restart_attempted:
                    ...
    # 所有尝试都失败
    return None

`BrowserManager.__new__` initializes only `driver`, `is_initialized` and
`restart_attempted`; the attribute `auto_restart` is never assigned
anywhere in the repository, so evaluating `self.auto_restart` in the
last-attempt handler raises AttributeError, which propagates out of
`get_page_content` (the handler of a `try` cannot catch what it raises
itself).  The embedding therefore maps that attribute read directly to
`.error (.attributeError "auto_restart")`.  One fetch attempt (navigation,
waiting, scrolling, reading `driver.page_source`) is the oracle
`fetch : Nat → Option String` (`none` = the attempt raised). -/

/-- `MAX_RETRIES = 3` from src/config.py. -/
def cfg_MAX_RETRIES : Nat := 3

/-- The attributes set by `BrowserManager.__new__`. -/
structure BrowserManagerState where
  is_initialized : Bool
  restart_attempted : Bool

/-- The `for attempt in range(cfg.MAX_RETRIES)` loop of
`get_page_content`, iterating over the remaining attempt indices. -/
def get_page_content_loop (fetch : Nat → Option String) :
    List Nat → Except PyErr (Option String)
  | [] => .ok none
  | attempt :: rest =>
    match fetch attempt with
    | some content => .ok (some content)
    | none =>
      if attempt < cfg_MAX_RETRIES - 1 then get_page_content_loop fetch rest
      else .error (.attributeError "auto_restart")

/-- Embedding of `BrowserManager.get_page_content`: initialize the
browser if needed (raising when initialization fails), then run the retry
loop. -/
def get_page_content (st : BrowserManagerState) (init_ok : Bool)
    (fetch : Nat → Option String) : Except PyErr (Option String) :=
  if st.is_initialized = false ∧ init_ok = false then
    .error (.exception "浏览器初始化失败")
  else
    get_page_content_loop fetch (List.range cfg_MAX_RETRIES)

/-- C2 (divergence, evaluated): within one invocation the fetch is
attempted for indices 0, 1, 2 only — a success on the third attempt is
returned, a success that would only come on a fourth attempt is never
consulted — but when every attempt fails, `get_page_content` does NOT
return None: it raises AttributeError, because the last-attempt handler
reads `self.auto_restart`, an attribute no code ever assigns. -/
theorem get_page_content_all_fail_raises :
    get_page_content ⟨true, false⟩ true (fun _ => none) =
      .error (.attributeError "auto_restart") ∧
    get_page_content ⟨true, false⟩ true
        (fun k => if k = 2 then some "<html>ok</html>" else none) =
      .ok (some "<html>ok</html>") ∧
    get_page_content ⟨true, false⟩ true
        (fun k => if k = 3 then some "<html>late</html>" else none) =
      .error (.attributeError "auto_restart") :=
  ⟨rfl, rfl, rfl⟩

/-
`LLMParser._extract_company_from_url` (llm_job_parser.py lines 1325-1386)
is pure string manipulation and is embedded concretely.  Python string
helpers are modelled on `List Char`; `.lower()`, `.title()` and the
"cased character" notion are modelled on ASCII (every string the function
compares against is ASCII). -/

/-- `s.split(sep, 1)`: split at the first occurrence of `sep`, returning
`(before, after)`, or `none` when `sep` does not occur. -/
def splitOnce (sep : List Char) : List Char → Option (List Char × List Char)
  | [] => none
  | c :: cs =>
    if sep.isPrefixOf (c :: cs) then some ([], (c :: cs).drop sep.length)
    else
      match splitOnce sep cs with
      | some (b, a) => some (c :: b, a)
      | none => none

/-- `s.split(sep)` for a one-character separator, Python semantics:
`"".split('.') == ['']`, `".".split('.') == ['', '']`. -/
def splitAllChar (sep : Char) : List Char → List (List Char)
  | [] => [[]]
  | c :: cs =>
    if c = sep then [] :: splitAllChar sep cs
    else
      match splitAllChar sep cs with
      | [] => [[c]]
      | h :: t => (c :: h) :: t

/-- Helper for Python `str.title()`: `prev_cased` tells whether the
previous character was a letter. -/
def pyTitleGo (prev_cased : Bool) : List Char → List Char
  | [] => []
  | c :: cs =>
    (if c.isAlpha then (if prev_cased then c.toLower else c.toUpper) else c)
      :: pyTitleGo c.isAlpha cs

/-- Python `str.title()` (ASCII): the first letter of every maximal
letter run is uppercased, the rest lowercased. -/
def pyTitle (l : List Char) : List Char := pyTitleGo false l

/-- Embedding of `LLMParser._extract_company_from_url`. -/
def extract_company_from_url (url : String) : String :=
  if url = "" then ""
  else
    let clean_url0 := (pyLower url).data
    let clean_url :=
      if ("http".data).isPrefixOf clean_url0 then
        match splitOnce ("://".data) clean_url0 with
        | some (_, after) => after
        | none => clean_url0
      else clean_url0
    let domain0 :=
      match splitOnce ['/'] clean_url with
      | some (before, _) => before
      | none => clean_url
    let domain :=
      if ("www.".data).isPrefixOf domain0 then domain0.drop 4 else domain0
    let company : List Char :=
      if listContainsSub domain ("linkedin.com".data) then
        if listContainsSub clean_url ("company/".data) then
          let company_path :=
            match splitOnce ("company/".data) clean_url with
            | some (_, after) => after
            | none => []  -- unreachable: guarded by the membership test
          let comp :=
            if listContainsSub company_path ['/'] then
              match splitOnce ['/'] company_path with
              | some (before, _) => before
              | none => company_path
            else company_path
          pyTitle (comp.map fun c => if c = '-' then ' ' else c)
        else []
      else if listContainsSub domain ("indeed.com".data) then
        ("Unknown (Indeed)").data
      else
        let parts := splitAllChar '.' domain
        let comp :=
          if parts.length ≥ 2 then
            let comp0 := parts.getD (parts.length - 2) []
            let common : List (List Char) :=
              [("careers").data, ("jobs").data, ("career").data,
               ("job").data, ("work").data, ("apply").data]
            if common.any (· = comp0.map Char.toLower) ∧ parts.length ≥ 3
            then parts.getD (parts.length - 3) []
            else comp0
          else []
        pyTitle (comp.map fun c => if c = '-' then ' ' else c)
    if company = [] then "未知公司" else ⟨company⟩

/-
`LLMParser._create_mock_job_data` (llm_job_parser.py lines 344-360):
`re.search(r'view/(\d+)', job_url)` captures the maximal digit run after
the first "view/" that is immediately followed by a digit. -/

/-- `re.search(r'view/(\d+)', url)`: the captured digit group of the
first match, scanning left to right. -/
def find_view_id : List Char → Option (List Char)
  | [] => none
  | c :: cs =>
    if ("view/".data).isPrefixOf (c :: cs) then
      let ds := ((c :: cs).drop 5).takeWhile Char.isDigit
      if ds = [] then find_view_id cs else some ds
    else find_view_id cs

/-- Embedding of `LLMParser._create_mock_job_data`: the returned dict, as
an insertion-ordered association list. -/
def create_mock_job_data (job_url : String) : List (String × String) :=
  let job_id : String :=
    match find_view_id job_url.data with
    | some ds => ⟨ds⟩
    | none => "未知ID"
  [("title", "软件工程师" ++ (⟨job_id.data.take 4⟩ : String)),
   ("company", "模拟公司"),
   ("description", "这是一个模拟的职位描述，由于无法访问实际的职位页面而生成。"),
   ("location", "远程"),
   ("recruiter", "模拟招聘人员"),
   ("url", job_url)]

/-
`LLMParser.parse_job` (llm_job_parser.py lines 161-221).  The page fetch
(`_get_job_page_content`, which catches its own exceptions and returns
`None`) is the oracle `get_content`; `parse_job_html` (LLM- and
BeautifulSoup-driven) is the oracle `parse_html`, which may raise
(`.error`) or produce any combination of present/absent, empty/non-empty
string fields.  The whole body runs under `try: ... except Exception:
return self._create_mock_job_data(job_url)`. -/

/-- The fields of the `parse_job_html` result dict that `parse_job`
reads; `none` = key absent. -/
structure JobInfo where
  title : Option String
  role : Option String
  company : Option String
  location : Option String
  description : Option String
  recruiter : Option String

/-- Python truthiness of `job_info.get(k)`: falsy iff the key is absent
or its value is the empty string. -/
def optTruthy : Option String → Bool
  | none => false
  | some s => s ≠ ""

/-- `job_info.get(k, default)`. -/
def optGetD (o : Option String) (d : String) : String := o.getD d

/-- Line 190-192: `if not job_info.get('company'): job_info['company'] =
self._extract_company_from_url(job_url)`. -/
def fixup_company_url (ji : JobInfo) (job_url : String) : JobInfo :=
  if optTruthy ji.company = false then
    { ji with company := some (extract_company_from_url job_url) } else ji

/-- Line 194-195: `if not job_info.get('title'): job_info['title'] =
job_info.get('role', '未知职位')`. -/
def fixup_title_role (ji : JobInfo) : JobInfo :=
  if optTruthy ji.title = false then
    { ji with title := some (optGetD ji.role "未知职位") } else ji

/-- Line 197-199: `if not job_info.get('title'): job_info['title'] =
'未知职位'`. -/
def fixup_title_default (ji : JobInfo) : JobInfo :=
  if optTruthy ji.title = false then
    { ji with title := some "未知职位" } else ji

/-- Line 201-203: `if not job_info.get('company'): job_info['company'] =
'未知公司'`. -/
def fixup_company_default (ji : JobInfo) : JobInfo :=
  if optTruthy ji.company = false then
    { ji with company := some "未知公司" } else ji

/-- The four fallback assignments of `parse_job` (lines 190-203), in
program order. -/
def jobinfo_fixup (ji : JobInfo) (job_url : String) : JobInfo :=
  fixup_company_default
    (fixup_title_default (fixup_title_role (fixup_company_url ji job_url)))

/-- The result dict literal of `parse_job` (lines 206-213). -/
def parse_job_result (ji : JobInfo) (job_url : String) :
    List (String × String) :=
  [("title", optGetD ji.title "未知职位"),
   ("company", optGetD ji.company "未知公司"),
   ("location", optGetD ji.location "未知地点"),
   ("description", optGetD ji.description ""),
   ("recruiter", optGetD ji.recruiter ""),
   ("url", job_url)]

/-- Embedding of `LLMParser.parse_job`. -/
def parse_job (test_mode : Bool) (get_content : Option String)
    (parse_html : String → Except Unit JobInfo) (job_url : String) :
    List (String × String) :=
  if test_mode then create_mock_job_data job_url
  else
    match get_content with
    | none => create_mock_job_data job_url
    | some html =>
      if html = "" then create_mock_job_data job_url
      else
        match parse_html html with
        | .error _ => create_mock_job_data job_url
        | .ok ji => parse_job_result (jobinfo_fixup ji job_url) job_url

/-- A string starting with a non-empty literal is non-empty. -/
theorem str_append_ne_empty (a b : String) (h : a.data ≠ []) :
    a ++ b ≠ "" := by
  intro hc
  have hd : a.data ++ b.data = [] := congrArg String.data hc
  exact h (List.append_eq_nil.mp hd).1

/-- `get(k, d)` of a truthy value is non-empty. -/
theorem optGetD_ne_empty (o : Option String) (d : String)
    (h : optTruthy o = true) : optGetD o d ≠ "" := by
  cases o with
  | none => simp [optTruthy] at h
  | some s =>
    simpa [optGetD] using of_decide_eq_true h

/-- After the third assignment the title is truthy. -/
theorem fixup_title_default_truthy (ji : JobInfo) :
    optTruthy (fixup_title_default ji).title = true := by
  unfold fixup_title_default
  by_cases h : optTruthy ji.title = false
  · rw [if_pos h]
    simp [optTruthy]
  · rw [if_neg h]
    exact Bool.of_not_eq_false h

/-- The fourth assignment only touches `company`. -/
theorem fixup_company_default_title (ji : JobInfo) :
    (fixup_company_default ji).title = ji.title := by
  unfold fixup_company_default
  split <;> rfl

/-- After the fourth assignment the company is truthy. -/
theorem fixup_company_default_truthy (ji : JobInfo) :
    optTruthy (fixup_company_default ji).company = true := by
  unfold fixup_company_default
  by_cases h : optTruthy ji.company = false
  · rw [if_pos h]
    simp [optTruthy]
  · rw [if_neg h]
    exact Bool.of_not_eq_false h

/-- The title of the fixed-up job info is truthy. -/
theorem jobinfo_fixup_title_truthy (ji : JobInfo) (url : String) :
    optTruthy (jobinfo_fixup ji url).title = true := by
  unfold jobinfo_fixup
  rw [fixup_company_default_title]
  exact fixup_title_default_truthy _

/-- The company of the fixed-up job info is truthy. -/
theorem jobinfo_fixup_company_truthy (ji : JobInfo) (url : String) :
    optTruthy (jobinfo_fixup ji url).company = true :=
  fixup_company_default_truthy _


/-- Shape of the mock job data: its keys are exactly the six result keys
(in its own insertion order), its url is the input url, and its title and
company are non-empty. -/
theorem create_mock_job_data_props (url : String) :
    ((create_mock_job_data url).map Prod.fst).Perm
      ["title", "company", "location", "description", "recruiter", "url"] ∧
    (create_mock_job_data url).lookup "url" = some url ∧
    (∃ t, (create_mock_job_data url).lookup "title" = some t ∧ t ≠ "") ∧
    (∃ c, (create_mock_job_data url).lookup "company" = some c ∧
      c ≠ "") := by
  refine ⟨?_, rfl, ⟨_, rfl, ?_⟩, ⟨_, rfl, by decide⟩⟩
  · show List.Perm
      ["title", "company", "description", "location", "recruiter", "url"]
      ["title", "company", "location", "description", "recruiter", "url"]
    decide
  · exact str_append_ne_empty _ _ (by decide)

/-- Shape of the main-path result dict of `parse_job`. -/
theorem parse_job_result_props (ji : JobInfo) (url : String) :
    ((parse_job_result ji url).map Prod.fst).Perm
      ["title", "company", "location", "description", "recruiter", "url"] ∧
    (parse_job_result ji url).lookup "url" = some url ∧
    (parse_job_result ji url).lookup "title" =
      some (optGetD ji.title "未知职位") ∧
    (parse_job_result ji url).lookup "company" =
      some (optGetD ji.company "未知公司") :=
  ⟨List.Perm.refl _, rfl, rfl, rfl⟩

/-- C1: `parse_job` is total over job URLs: for every oracle behavior
(test mode flag, page fetch result, HTML parsing outcome) it returns a
dict whose keys are exactly `title`, `company`, `location`,
`description`, `recruiter`, `url`, whose `url` value is the input URL and
whose `title` and `company` values are non-empty; and when the page fetch
returns nothing (None or empty) or the HTML parsing raises, it returns
the mock job data for that URL instead of raising. -/
theorem parse_job_spec (test_mode : Bool) (get_content : Option String)
    (parse_html : String → Except Unit JobInfo) (job_url : String) :
    (((parse_job test_mode get_content parse_html job_url).map
        Prod.fst).Perm
      ["title", "company", "location", "description", "recruiter", "url"]) ∧
    (parse_job test_mode get_content parse_html job_url).lookup "url" =
      some job_url ∧
    (∃ t, (parse_job test_mode get_content parse_html job_url).lookup
        "title" = some t ∧ t ≠ "") ∧
    (∃ c, (parse_job test_mode get_content parse_html job_url).lookup
        "company" = some c ∧ c ≠ "") ∧
    (get_content = none ∨ get_content = some "" →
      parse_job test_mode get_content parse_html job_url =
        create_mock_job_data job_url) ∧
    (∀ html, get_content = some html → parse_html html = .error () →
      parse_job test_mode get_content parse_html job_url =
        create_mock_job_data job_url) := by
  obtain ⟨hkm, hum, htm, hcm⟩ := create_mock_job_data_props job_url
  by_cases ht : test_mode = true
  · subst ht
    exact ⟨hkm, hum, htm, hcm, fun _ => rfl, fun _ _ _ => rfl⟩
  · replace ht : test_mode = false := by
      cases test_mode
      · rfl
      · exact absurd rfl ht
    subst ht
    cases hgc : get_content with
    | none =>
      refine ⟨?_, ?_, ?_, ?_, fun _ => ?_, fun html hh _ => ?_⟩ <;>
        simp [parse_job, *]
    | some html =>
      by_cases hh : html = ""
      · subst hh
        refine ⟨?_, ?_, ?_, ?_, fun _ => ?_, fun html' hh' _ => ?_⟩ <;>
          simp [parse_job, *]
      · cases hp : parse_html html with
        | error e =>
          have hr : parse_job false (some html) parse_html job_url =
              create_mock_job_data job_url := by
            simp [parse_job, hh, hp]
          refine ⟨?_, ?_, ?_, ?_, fun hcontra => ?_, fun html' hh' _ => ?_⟩
          · rw [hr]; exact hkm
          · rw [hr]; exact hum
          · rw [hr]; exact htm
          · rw [hr]; exact hcm
          · exact hr
          · exact hr
        | ok ji =>
          have hr : parse_job false (some html) parse_html job_url =
              parse_job_result (jobinfo_fixup ji job_url) job_url := by
            simp [parse_job, hh, hp]
          obtain ⟨hk, hu, hti, hco⟩ :=
            parse_job_result_props (jobinfo_fixup ji job_url) job_url
          refine ⟨?_, ?_, ?_, ?_, fun hcontra => ?_, fun html' hh' hp' => ?_⟩
          · rw [hr]; exact hk
          · rw [hr]; exact hu
          · rw [hr, hti]
            exact ⟨_, rfl, optGetD_ne_empty _ _
              (jobinfo_fixup_title_truthy ji job_url)⟩
          · rw [hr, hco]
            exact ⟨_, rfl, optGetD_ne_empty _ _
              (jobinfo_fixup_company_truthy ji job_url)⟩
          · rcases hcontra with h1 | h1
            · simp at h1
            · simp only [Option.some.injEq] at h1
              exact absurd h1 hh
          · have : html' = html := by
              injection hh'.symm
            subst this
            rw [hp] at hp'
            exact absurd hp' (by simp)

/-- Witness for C1: concrete evaluation in the failure path (no page
content) and in the main path (a parsed job info with an empty company on
a LinkedIn company URL). -/
theorem parse_job_spec_witness :
    parse_job false none (fun _ => .ok ⟨some "T", none, some "C", none,
        none, none⟩) "https://www.linkedin.com/jobs/view/123456" =
      create_mock_job_data "https://www.linkedin.com/jobs/view/123456" ∧
    (parse_job false (some "<html>j</html>")
        (fun _ => .ok ⟨none, none, none, none, none, none⟩)
        "https://careers.acme-corp.com/jobs/view/42").lookup "title" =
      some "未知职位" := by
  constructor
  · exact (parse_job_spec false none
      (fun _ => .ok ⟨some "T", none, some "C", none, none, none⟩)
      "https://www.linkedin.com/jobs/view/123456").2.2.2.2.1 (Or.inl rfl)
  · obtain ⟨-, -, ⟨t, hlook, -⟩, -⟩ := parse_job_spec false
      (some "<html>j</html>")
      (fun _ => .ok ⟨none, none, none, none, none, none⟩)
      "https://careers.acme-corp.com/jobs/view/42"
    rw [hlook]
    have : t = "未知职位" := by
      have := hlook
      rw [show parse_job false (some "<html>j</html>")
          (fun _ => .ok ⟨none, none, none, none, none, none⟩)
          "https://careers.acme-corp.com/jobs/view/42" =
          parse_job_result (jobinfo_fixup
            ⟨none, none, none, none, none, none⟩
            "https://careers.acme-corp.com/jobs/view/42")
          "https://careers.acme-corp.com/jobs/view/42" from rfl] at this
      rw [(parse_job_result_props _ _).2.2.1] at this
      injection this with h
      rw [← h]
      rfl
    rw [this]

/-
`clean_filename` (src/main.py lines 20-73).  The regex substitutions are
embedded directly on `List Char`:
  `re.sub(r'<think>.*?</think>', '', name, flags=re.DOTALL)` scans left to
  right; at each position a match starts with "<think>" and runs
  (non-greedily) to the NEAREST following "</think>";
  `re.sub(r'<think>.*', '', ·, flags=re.DOTALL)` removes everything from
  the first remaining "<think>" to the end;
  `re.sub(r'[,.;，。；！？!?()（）\[\]【】{}]', '_', ·)` and the single
  character `str.replace` calls are per-character maps;
  `re.sub(r'_+', '_', ·)` collapses every run of underscores to one;
  `.strip('_')` drops underscores from both ends. -/

/-- Scan for the nearest "</think>" and return the remainder after it. -/
def dropToClose : List Char → Option (List Char)
  | [] => none
  | c :: cs =>
    if ("</think>".data).isPrefixOf (c :: cs) then some ((c :: cs).drop 8)
    else dropToClose cs

/-- `dropToClose` only ever drops characters. -/
theorem dropToClose_length_le (l : List Char) :
    ∀ r, dropToClose l = some r → r.length ≤ l.length := by
  induction l with
  | nil => intro r h; simp [dropToClose] at h
  | cons c cs ih =>
    intro r h
    unfold dropToClose at h
    split at h
    · injection h with h
      subst h
      simp [List.length_drop]
      omega
    · exact le_trans (ih r h) (by simp)

/-- `re.sub(r'<think>.*?</think>', '', ·, flags=re.DOTALL)`. -/
def removeThinkBlocks : List Char → List Char
  | [] => []
  | c :: cs =>
    if ("<think>".data).isPrefixOf (c :: cs) then
      match h : dropToClose ((c :: cs).drop 7) with
      | some rest => removeThinkBlocks rest
      | none => c :: removeThinkBlocks cs
    else c :: removeThinkBlocks cs
termination_by l => l.length
decreasing_by
  · have := dropToClose_length_le _ _ h
    simp [List.length_drop] at this ⊢
    omega
  · simp
  · simp

/-- `re.sub(r'<think>.*', '', ·, flags=re.DOTALL)`. -/
def removeThinkTail : List Char → List Char
  | [] => []
  | c :: cs =>
    if ("<think>".data).isPrefixOf (c :: cs) then []
    else c :: removeThinkTail cs

/-- `str.replace(a, b)` for single characters. -/
def replaceChar (a b : Char) (l : List Char) : List Char :=
  l.map fun c => if c = a then b else c

/-- The `illegal_chars` list of `clean_filename` (line 45). -/
def illegal_chars : List Char :=
  ['\\', '/', ':', '*', '?', '"', '<', '>', '|']

/-- The punctuation character class of the
`re.sub(r'[,.;，。；！？!?()（）\[\]【】{}]', '_', ·)` call (line 50). -/
def punct_class : List Char :=
  [',', '.', ';', '，', '。', '；', '！', '？', '!', '?',
   '(', ')', '（', '）', '[', ']', '【', '】', '{', '}']

/-- A character-class regex substitution: a per-character map. -/
def replaceClass (cls : List Char) (b : Char) (l : List Char) : List Char :=
  l.map fun c => if c ∈ cls then b else c

/-- `re.sub(r'_+', '_', ·)`: collapse each run of underscores to one. -/
def collapseUnderscores : List Char → List Char
  | [] => []
  | [c] => [c]
  | a :: b :: rest =>
    if a = '_' ∧ b = '_' then collapseUnderscores (b :: rest)
    else a :: collapseUnderscores (b :: rest)

/-- `str.strip(c)`: drop copies of `a` from both ends. -/
def stripCharEnds (a : Char) (l : List Char) : List Char :=
  pyStripListWith (fun c => c = a) l

/-- Lines 38-59 of `clean_filename`: the whole replacement pipeline, from
the think-tag removal through `strip('_')`. -/
def clean_filename_core (l0 : List Char) : List Char :=
  let l1 := removeThinkTail (removeThinkBlocks l0)
  let l2 := pyStripListWith pyIsSpace (replaceChar '\n' '_' l1)
  let l3 := illegal_chars.foldl (fun acc ch => replaceChar ch '_' acc) l2
  let l4 := replaceClass punct_class '_' l3
  let l5 := replaceChar ' ' '_' l4
  stripCharEnds '_' (collapseUnderscores l5)

/-- Lines 30-67 of `clean_filename`: everything before the final
`startswith('.')` branch (empty input check, pipeline, empty/whitespace
check, 50-character truncation to 47 + "..."). -/
def clean_filename_trunc (name : String) : List Char :=
  if name = "" then ("未提供").data
  else
    let cleaned := clean_filename_core name.data
    if cleaned = [] ∨ cleaned.all pyIsSpace = true then ("未提供").data
    else if cleaned.length > 50 then cleaned.take 47 ++ ("...").data
    else cleaned

/-- Embedding of `clean_filename` (src/main.py lines 20-73). -/
def clean_filename (name : String) : String :=
  let pre := clean_filename_trunc name
  if pre.head? = some '.' then ⟨("file_").data ++ pre⟩ else ⟨pre⟩

/-- Stripping characters from both ends only drops characters. -/
theorem mem_pyStripListWith (p : Char → Bool) (l : List Char) (c : Char)
    (h : c ∈ pyStripListWith p l) : c ∈ l := by
  unfold pyStripListWith at h
  rw [List.mem_reverse] at h
  have h2 := (List.dropWhile_sublist _).subset h
  rw [List.mem_reverse] at h2
  exact (List.dropWhile_sublist _).subset h2

/-- A character of `replaceChar a b l` is `b` or a character of `l` other
than `a`. -/
theorem mem_replaceChar {a b c : Char} {l : List Char}
    (h : c ∈ replaceChar a b l) : c = b ∨ (c ∈ l ∧ c ≠ a) := by
  unfold replaceChar at h
  rcases List.mem_map.mp h with ⟨x, hx, hfx⟩
  by_cases hxa : x = a
  · left
    rw [← hfx, if_pos hxa]
  · right
    rw [← hfx, if_neg hxa]
    exact ⟨hx, hxa⟩

/-- A character of `replaceClass cls b l` is `b` or a character of `l`
outside the class. -/
theorem mem_replaceClass {cls : List Char} {b c : Char} {l : List Char}
    (h : c ∈ replaceClass cls b l) : c = b ∨ (c ∈ l ∧ c ∉ cls) := by
  unfold replaceClass at h
  rcases List.mem_map.mp h with ⟨x, hx, hfx⟩
  by_cases hxc : x ∈ cls
  · left
    rw [← hfx, if_pos hxc]
  · right
    rw [← hfx, if_neg hxc]
    exact ⟨hx, hxc⟩

/-- A character surviving the fold of single-character replacements is an
underscore or a character of the input outside the replaced set. -/
theorem mem_foldl_replaceChar (chs : List Char) (l : List Char) (c : Char)
    (h : c ∈ chs.foldl (fun acc ch => replaceChar ch '_' acc) l) :
    c = '_' ∨ (c ∈ l ∧ c ∉ chs) := by
  induction chs generalizing l with
  | nil => exact Or.inr ⟨h, by simp⟩
  | cons ch chs' ih =>
    rw [List.foldl_cons] at h
    rcases ih (replaceChar ch '_' l) h with h1 | ⟨h1, h2⟩
    · exact Or.inl h1
    · rcases mem_replaceChar h1 with h3 | ⟨h3, h4⟩
      · exact Or.inl h3
      · refine Or.inr ⟨h3, ?_⟩
        simp only [List.mem_cons, not_or]
        exact ⟨h4, h2⟩

/-- Collapsing underscore runs yields a sublist. -/
theorem collapseUnderscores_sublist (l : List Char) :
    List.Sublist (collapseUnderscores l) l := by
  induction l using collapseUnderscores.induct with
  | case1 => simp [collapseUnderscores]
  | case2 c => simp [collapseUnderscores]
  | case3 a b rest hab ih =>
    rw [collapseUnderscores, if_pos hab]
    exact ih.cons a
  | case4 a b rest hab ih =>
    rw [collapseUnderscores, if_neg hab]
    exact ih.cons₂ a

/-- Every character of the pipeline output is outside the illegal set, is
not a space, not a newline, and not a dot. -/
theorem mem_clean_filename_core (l0 : List Char) (c : Char)
    (h : c ∈ clean_filename_core l0) :
    c ∉ illegal_chars ∧ c ≠ ' ' ∧ c ≠ '\n' ∧ c ≠ '.' := by
  unfold clean_filename_core at h
  have h7 := mem_pyStripListWith _ _ _ h
  have h6 := (collapseUnderscores_sublist _).subset h7
  rcases mem_replaceChar h6 with rfl | ⟨h5, hsp⟩
  · decide
  rcases mem_replaceClass h5 with rfl | ⟨h4, hpunct⟩
  · decide
  rcases mem_foldl_replaceChar _ _ _ h4 with rfl | ⟨h3, hill⟩
  · decide
  have h2 := mem_pyStripListWith _ _ _ h3
  rcases mem_replaceChar h2 with rfl | ⟨_, hnl⟩
  · decide
  exact ⟨hill, hsp, hnl, fun hdot => hpunct (by rw [hdot]; decide)⟩

/-- Shape of the value reaching the `startswith('.')` branch: non-empty,
at most 50 characters, not starting with a dot, and containing no illegal
character, no space and no newline. -/
theorem clean_filename_trunc_props (name : String) :
    clean_filename_trunc name ≠ [] ∧
    (clean_filename_trunc name).length ≤ 50 ∧
    (clean_filename_trunc name).head? ≠ some '.' ∧
    ∀ c ∈ clean_filename_trunc name,
      c ∉ illegal_chars ∧ c ≠ ' ' ∧ c ≠ '\n' := by
  unfold clean_filename_trunc
  by_cases hn : name = ""
  · rw [if_pos hn]
    refine ⟨by decide, by decide, by decide, by decide⟩
  rw [if_neg hn]
  by_cases hc : clean_filename_core name.data = [] ∨
      (clean_filename_core name.data).all pyIsSpace = true
  · rw [if_pos hc]
    refine ⟨by decide, by decide, by decide, by decide⟩
  rw [if_neg hc]
  have hne : clean_filename_core name.data ≠ [] := fun h => hc (Or.inl h)
  by_cases hlen : (clean_filename_core name.data).length > 50
  · rw [if_pos hlen]
    obtain ⟨a, as, ha⟩ := List.exists_cons_of_ne_nil hne
    refine ⟨by simp, ?_, ?_, ?_⟩
    · rw [List.length_append, List.length_take]
      simp only [List.length_cons, List.length_nil]
      omega
    · rw [ha]
      intro hcontra
      have hcontra2 :
          (a :: (List.take 46 as ++ ['.', '.', '.'])).head? = some '.' :=
        hcontra
      have ha_dot : a = '.' := by simpa using hcontra2
      have hmem : a ∈ clean_filename_core name.data := by
        rw [ha]; exact List.mem_cons_self a as
      exact (mem_clean_filename_core _ _ hmem).2.2.2 ha_dot
    · intro c hcmem
      rcases List.mem_append.mp hcmem with h1 | h1
      · have := List.take_subset _ _ h1
        have hp := mem_clean_filename_core _ _ this
        exact ⟨hp.1, hp.2.1, hp.2.2.1⟩
      · have : c = '.' := by
          simp only [List.mem_cons, List.not_mem_nil, or_false] at h1
          rcases h1 with h | h | h <;> exact h
        subst this
        refine ⟨by decide, by decide, by decide⟩
  · rw [if_neg hlen]
    refine ⟨hne, by omega, ?_, ?_⟩
    · intro hcontra
      have hmem := List.mem_of_mem_head? hcontra
      exact (mem_clean_filename_core _ _ hmem).2.2.2 rfl
    · intro c hcmem
      have hp := mem_clean_filename_core _ _ hcmem
      exact ⟨hp.1, hp.2.1, hp.2.2.1⟩

/-- C4: for every input, `clean_filename` returns a non-empty string
containing none of the characters `\ / : * ? " < > |`, no space and no
newline; the empty input and inputs whose cleaned form is empty yield the
fixed placeholder "未提供". -/
theorem clean_filename_sanitizes (name : String) :
    clean_filename name ≠ "" ∧
    (∀ c ∈ (clean_filename name).data,
      c ∉ illegal_chars ∧ c ≠ ' ' ∧ c ≠ '\n') ∧
    (name = "" → clean_filename name = "未提供") ∧
    (clean_filename_core name.data = [] →
      clean_filename name = "未提供") := by
  obtain ⟨hne, hlen, hdot, hmem⟩ := clean_filename_trunc_props name
  have hbranch : clean_filename name = ⟨clean_filename_trunc name⟩ := by
    unfold clean_filename
    rw [if_neg hdot]
  refine ⟨?_, ?_, ?_, ?_⟩
  · rw [hbranch]
    intro h
    exact hne (congrArg String.data h)
  · rw [hbranch]
    intro c hc
    exact hmem c hc
  · intro h
    subst h
    rfl
  · intro h
    by_cases hn : name = ""
    · subst hn
      rfl
    · have htr : clean_filename_trunc name = ("未提供").data := by
        unfold clean_filename_trunc
        rw [if_neg hn, if_pos (Or.inl h)]
      unfold clean_filename
      rw [htr]
      decide

/-- Witness for C4: the empty input yields the placeholder; a concrete
dirty input yields a non-empty name from which `?` (an illegal
character) is absent. -/
theorem clean_filename_sanitizes_witness :
    clean_filename "" = "未提供" ∧
    clean_filename "my: resume?.pdf" ≠ "" ∧
    '?' ∈ illegal_chars ∧
    '?' ∉ (clean_filename "my: resume?.pdf").data :=
  ⟨(clean_filename_sanitizes "").2.2.1 rfl,
   (clean_filename_sanitizes "my: resume?.pdf").1,
   by decide,
   fun h => ((clean_filename_sanitizes "my: resume?.pdf").2.1 '?' h).1
     (by decide)⟩

/-- C8: the `startswith('.')` branch of `clean_filename` is unreachable —
the value reaching it never starts with a dot, because every dot was
replaced by an underscore and the only reintroduced dots are the trailing
"..." of truncation — so `clean_filename` returns the pre-branch value
unchanged, and the returned string never exceeds 50 characters. -/
theorem clean_filename_dot_branch_dead (name : String) :
    (clean_filename_trunc name).head? ≠ some '.' ∧
    clean_filename name = ⟨clean_filename_trunc name⟩ ∧
    (clean_filename name).length ≤ 50 := by
  obtain ⟨hne, hlen, hdot, hmem⟩ := clean_filename_trunc_props name
  have hbranch : clean_filename name = ⟨clean_filename_trunc name⟩ := by
    unfold clean_filename
    rw [if_neg hdot]
  refine ⟨hdot, hbranch, ?_⟩
  rw [hbranch]
  exact hlen

/-- Witness for C8 at concrete inputs, including one that tries to start
with a dot and one that overflows the length cap. -/
theorem clean_filename_dot_branch_dead_witness :
    (clean_filename_trunc ".hidden").head? ≠ some '.' ∧
    (clean_filename ".hidden").length ≤ 50 ∧
    (clean_filename (String.mk (List.replicate 60 'a'))).length ≤ 50 :=
  ⟨(clean_filename_dot_branch_dead ".hidden").1,
   (clean_filename_dot_branch_dead ".hidden").2.2,
   (clean_filename_dot_branch_dead (String.mk (List.replicate 60 'a'))).2.2⟩
